import Mathlib

/-!
Verification of the chatbot-kb-monitor repository's scan–classify–retry core.

Python strings are modelled as `List Char` (a Python `str` is a sequence of
code points).  Each definition below is a shallow embedding of one function of
the repository; the browser page is modelled as an oracle (a function from
selectors to located rows, or from attempt numbers to what the page showed
during that attempt), since the page is an external collaborator.
-/

/-- Python strings, modelled as lists of code points. -/
abbrev Str := List Char

/-- Python's `pat in hay` substring test (contiguous, case-sensitive). -/
def hasSubstr (hay pat : Str) : Bool :=
  pat.isPrefixOf hay ||
    match hay with
    | [] => false
    | _ :: t => hasSubstr t pat

/-- Python's `str.lower()` (ASCII letters; the repository's patterns are ASCII). -/
def toLowerL (s : Str) : Str := s.map Char.toLower

/-- Python's `str.strip()`: drop leading and trailing whitespace. -/
def stripL (s : Str) : Str :=
  ((s.dropWhile Char.isWhitespace).reverse.dropWhile Char.isWhitespace).reverse

/-- Python's `str.split(sep)` for a one-character separator; keeps empty parts. -/
def splitOnChar (sep : Char) : Str → List Str
  | [] => [[]]
  | c :: t =>
    let r := splitOnChar sep t
    if c = sep then [] :: r
    else
      match r with
      | [] => [[c]]
      | h :: t2 => (c :: h) :: t2

/-- Python's `str.split()` with no argument: split on whitespace runs,
dropping empty parts. -/
def pyWords (s : Str) : List Str :=
  (s.splitOnP Char.isWhitespace).filter (fun w => ¬ w.isEmpty)

theorem hasSubstr_iff (hay pat : Str) : hasSubstr hay pat = true ↔ pat <:+: hay := by
  induction hay with
  | nil =>
    simp [hasSubstr, List.infix_nil, List.isPrefixOf_iff_prefix]
  | cons c t ih =>
    rw [hasSubstr]
    simp [List.isPrefixOf_iff_prefix, ih, List.infix_cons_iff]

/-!
## Failure Classifier — `src/src/automation/kb_monitor.py`, `_scan_failures`

For each row the code runs
`for indicator in self.config.monitoring.failure_indicators:
   if indicator in row_text: has_failure = True; matched_indicator = indicator; break`.
`scanRowIndicator` embeds that loop, returning the matched indicator;
the row is classified failed iff the result is `some`.
-/

/-- Default `failure_indicators` from `src/src/utils/config_loader.py`
(also the literal list in `monitor_actions.py`). -/
def failure_indicators : List Str :=
  ["失敗".toList, "エラー".toList, "error".toList, "failed".toList]

/-- The per-row indicator loop of `_scan_failures`: first configured marker
occurring in the row text, if any. -/
def scanRowIndicator (indicators : List Str) (rowText : Str) : Option Str :=
  match indicators with
  | [] => none
  | ind :: rest =>
    if hasSubstr rowText ind then some ind else scanRowIndicator rest rowText

/-- `has_failure` for one row: some configured marker matched. -/
def classifyRow (indicators : List Str) (rowText : Str) : Bool :=
  (scanRowIndicator indicators rowText).isSome

theorem scanRowIndicator_eq_find (indicators : List Str) (rowText : Str) :
    scanRowIndicator indicators rowText
      = indicators.find? (fun ind => hasSubstr rowText ind) := by
  induction indicators with
  | nil => rfl
  | cons ind rest ih =>
    rw [scanRowIndicator, List.find?]
    by_cases h : hasSubstr rowText ind
    · simp [h]
    · simp [h, ih]

/-- C3: the failure classifier is a total function (by construction), and a
row is classified failed iff some configured marker is a contiguous
case-sensitive substring of the row text. -/
theorem classifyRow_iff_marker (indicators : List Str) (rowText : Str) :
    classifyRow indicators rowText = true ↔
      ∃ m ∈ indicators, m <:+: rowText := by
  unfold classifyRow
  rw [scanRowIndicator_eq_find]
  rw [List.find?_isSome]
  constructor
  · rintro ⟨m, hm, hsub⟩
    exact ⟨m, hm, (hasSubstr_iff rowText m).1 hsub⟩
  · rintro ⟨m, hm, hsub⟩
    exact ⟨m, hm, (hasSubstr_iff rowText m).2 hsub⟩

theorem classifyRow_sample_en :
    classifyRow failure_indicators "doc.pdf  failed  3MB".toList = true := by decide

theorem classifyRow_sample_healthy :
    classifyRow failure_indicators "doc.pdf  done  3MB".toList = false := by decide

theorem classifyRow_sample_ja :
    classifyRow failure_indicators "doc.pdf  失敗  3MB".toList = true := by decide

/-!
## Identifier extraction — `kb_monitor.py`, `_extract_file_name_from_row`
plus the `file_name or f"Row_{row_index}"` fallback in `_scan_failures`.

The row's first `td` cell is an external observation: `firstCellText = none`
models "no `td` cell found, or reading it raised" (both land in the same
fallthrough in the code); `some t` models a first cell whose `inner_text()`
returned `t`.
-/

/-- The fixed list of known column-header labels skipped by step (2) of
`_extract_file_name_from_row`. -/
def headerLabels : List Str :=
  ["リソース".toList, "タイトル".toList, "タイプ".toList, "サイズ".toList,
   "ステータス".toList, "モデル".toList, "トークン数".toList,
   "最終更新日".toList, "アクション".toList]

/-- Step (2) of `_extract_file_name_from_row`: the `for line in lines` loop.
Each line is stripped; empty lines and known header labels are skipped; the
first tab-separated field of a surviving line is returned only when its
stripped length exceeds 3, otherwise the loop moves on. -/
def firstMeaningfulLine : List Str → Option Str
  | [] => none
  | l :: rest =>
    let line := stripL l
    if ¬ line.isEmpty ∧ line ∉ headerLabels then
      let file_name := stripL ((splitOnChar '\t' line).headD [])
      if 3 < file_name.length then some file_name
      else firstMeaningfulLine rest
    else firstMeaningfulLine rest

/-- Step (3) of `_extract_file_name_from_row`: `row_text.strip().split()`,
take the first word, then strip anything after a tab, newline, or tab
(the code's literal cleanup list). -/
def firstWordCleaned (rowText : Str) : Option Str :=
  match pyWords (stripL rowText) with
  | [] => none
  | w :: _ =>
    let w1 := (splitOnChar '\t' w).headD []
    let w2 := (splitOnChar '\n' w1).headD []
    let w3 := (splitOnChar '\t' w2).headD []
    some w3

/-- `_extract_file_name_from_row`: `None` on empty row text; else the
stripped first-cell text when non-empty; else the line scan; else the first
word; else `None`. -/
def extract_file_name_from_row (firstCellText : Option Str) (rowText : Str) :
    Option Str :=
  if rowText.isEmpty then none
  else
    let fallback :=
      match firstMeaningfulLine (splitOnChar '\n' rowText) with
      | some fn => some fn
      | none => firstWordCleaned rowText
    match firstCellText with
    | some cellText =>
      if ¬ (stripL cellText).isEmpty then some (stripL cellText) else fallback
    | none => fallback

/-- The synthetic identifier `f"Row_{row_index}"`. -/
def rowTag (rowIndex : Nat) : Str := "Row_".toList ++ Nat.toDigits 10 rowIndex

/-- The identifier recorded by `_scan_failures`:
`file_name or f"Row_{row_index}"` (Python falsiness: `None` or the empty
string both fall back to the synthetic tag). -/
def itemIdentifier (firstCellText : Option Str) (rowText : Str)
    (rowIndex : Nat) : Str :=
  match extract_file_name_from_row firstCellText rowText with
  | some fn => if fn.isEmpty then rowTag rowIndex else fn
  | none => rowTag rowIndex

/-- The claim C7 extraction policy, written from the spec's words (for
comparison with the code's `itemIdentifier`): first cell text when present
and non-empty; otherwise the first non-empty line of the row text that is
not a known header label; otherwise the first whitespace-delimited token of
the raw row text; otherwise `Row_<index>`. -/
def specIdentifierC7 (firstCellText : Option Str) (rowText : Str)
    (rowIndex : Nat) : Str :=
  let step2 : Option Str :=
    ((splitOnChar '\n' rowText).map stripL).find?
      (fun l => ¬ l.isEmpty ∧ l ∉ headerLabels)
  let fallback : Str :=
    match step2 with
    | some l => l
    | none =>
      match pyWords (stripL rowText) with
      | w :: _ => w
      | [] => rowTag rowIndex
  match firstCellText with
  | some cellText =>
    if ¬ (stripL cellText).isEmpty then stripL cellText else fallback
  | none => fallback

theorem rowTag_sample : rowTag 12 = "Row_12".toList := by decide

theorem mem_splitOnP_no_sep (p : Char → Bool) (s : Str) :
    ∀ w ∈ s.splitOnP p, ∀ c ∈ w, ¬ p c := by
  induction s with
  | nil =>
    intro w hw c hc
    rw [List.splitOnP_nil] at hw
    simp at hw
    subst hw
    simp at hc
  | cons x xs ih =>
    intro w hw c hc
    rw [List.splitOnP_cons] at hw
    by_cases hx : p x
    · simp [hx] at hw
      rcases hw with hw | hw
      · subst hw; simp at hc
      · exact ih w hw c hc
    · simp [hx] at hw
      rcases hsplit : xs.splitOnP p with _ | ⟨h, t⟩
      · exact absurd hsplit (List.splitOnP_ne_nil p xs)
      · rw [hsplit] at hw
        simp [List.modifyHead] at hw
        rcases hw with hw | hw
        · subst hw
          rw [List.mem_cons] at hc
          rcases hc with hc | hc
          · subst hc; simp [hx]
          · exact ih h (hsplit ▸ List.mem_cons_self h t) c hc
        · exact ih w (hsplit ▸ List.mem_cons_of_mem h hw) c hc

theorem mem_pyWords (s : Str) :
    ∀ w ∈ pyWords s, ¬ w.isEmpty ∧ ∀ c ∈ w, ¬ c.isWhitespace := by
  intro w hw
  unfold pyWords at hw
  rw [List.mem_filter] at hw
  exact ⟨by simpa using hw.2, mem_splitOnP_no_sep Char.isWhitespace s w hw.1⟩

theorem splitOnChar_no_sep (sep : Char) (w : Str) (h : ∀ c ∈ w, c ≠ sep) :
    splitOnChar sep w = [w] := by
  induction w with
  | nil => rfl
  | cons x t ih =>
    rw [splitOnChar]
    have hx : x ≠ sep := h x (List.mem_cons_self x t)
    simp only [hx, if_false]
    rw [ih (fun c hc => h c (List.mem_cons_of_mem x hc))]

/-- The word-level cleanup in step (3) is the identity: the token produced by
`split()` contains no whitespace, hence no tab and no newline. -/
theorem firstWordCleaned_eq_head (rowText : Str) :
    firstWordCleaned rowText = (pyWords (stripL rowText)).head? := by
  unfold firstWordCleaned
  rcases hws : pyWords (stripL rowText) with _ | ⟨w, t⟩
  · rfl
  · have hmem := mem_pyWords (stripL rowText) w (hws ▸ List.mem_cons_self w t)
    have hnosep : ∀ sep : Char, sep.isWhitespace → ∀ c ∈ w, c ≠ sep := by
      intro sep hsep c hc heq
      exact hmem.2 c hc (heq ▸ hsep)
    have htab : splitOnChar '\t' w = [w] :=
      splitOnChar_no_sep _ w (hnosep '\t' (by decide))
    have hnl : splitOnChar '\n' w = [w] :=
      splitOnChar_no_sep _ w (hnosep '\n' (by decide))
    simp [htab, hnl]

/-- The per-line filter applied by step (2)'s loop: the stripped line must be
non-empty, not a known header label, and its first tab-separated field
(stripped again) must be longer than 3 characters; the surviving field is the
extracted name. -/
def lineFieldOf (l : Str) : Option Str :=
  let line := stripL l
  if ¬ line.isEmpty ∧ line ∉ headerLabels then
    let fn := stripL ((splitOnChar '\t' line).headD [])
    if 3 < fn.length then some fn else none
  else none

theorem firstMeaningfulLine_cons (l : Str) (rest : List Str) :
    firstMeaningfulLine (l :: rest) =
      match lineFieldOf l with
      | some fn => some fn
      | none => firstMeaningfulLine rest := by
  simp only [firstMeaningfulLine, lineFieldOf]
  split
  · split
    · rfl
    · rfl
  · rfl

theorem firstMeaningfulLine_eq_findSome (ls : List Str) :
    firstMeaningfulLine ls = ls.findSome? lineFieldOf := by
  induction ls with
  | nil => rfl
  | cons l rest ih =>
    rw [firstMeaningfulLine_cons, List.findSome?_cons, ih]
    rcases lineFieldOf l with _ | fn <;> rfl

theorem rowTag_ne_nil (i : Nat) : rowTag i ≠ [] := by
  unfold rowTag
  intro h
  rw [List.append_eq_nil] at h
  exact absurd h.1 (by decide)

theorem lineFieldOf_ne_nil (l fn : Str) (h : lineFieldOf l = some fn) :
    ¬ fn.isEmpty := by
  simp only [lineFieldOf] at h
  split at h
  · split at h
    · rename_i h2
      rw [Option.some_inj] at h
      subst h
      intro hemp
      rw [List.isEmpty_iff] at hemp
      rw [hemp] at h2
      simp at h2
    · exact absurd h (by simp)
  · exact absurd h (by simp)

/-- C7 (counterexample): the claim's step (2) — "the first non-empty line of
the row text that is not a known header label" — disagrees with the code.
For row text `"abc\nlongname.pdf"` with no first cell, the first non-empty
non-header line is `"abc"`, but `_extract_file_name_from_row` skips any line
whose first tab-field has stripped length at most 3 and records
`"longname.pdf"` instead. -/
theorem itemIdentifier_vs_claim_cex :
    itemIdentifier none "abc\nlongname.pdf".toList 0 = "longname.pdf".toList
    ∧ specIdentifierC7 none "abc\nlongname.pdf".toList 0 = "abc".toList
    ∧ itemIdentifier none "abc\nlongname.pdf".toList 0
        ≠ specIdentifierC7 none "abc\nlongname.pdf".toList 0 :=
  ⟨by decide, by decide, by decide⟩

/-- C7 (amended): identifier extraction is total and deterministic — it never
produces an empty identifier; on empty row text it yields `Row_<index>`
directly (the cell is not consulted); on non-empty row text the stripped
first-cell text wins when non-empty; otherwise the first line whose stripped
content is non-empty, is not a known header label, and whose stripped first
tab-field is longer than 3 characters yields that field, else the first
whitespace-delimited token of the stripped row text, else `Row_<index>`. -/
theorem itemIdentifier_policy (cell : Option Str) (rowText : Str) (i : Nat) :
    itemIdentifier cell rowText i ≠ []
    ∧ (rowText.isEmpty → itemIdentifier cell rowText i = rowTag i)
    ∧ (∀ c, ¬ rowText.isEmpty → cell = some c → ¬ (stripL c).isEmpty →
        itemIdentifier cell rowText i = stripL c)
    ∧ (¬ rowText.isEmpty →
        (cell = none ∨ ∃ c, cell = some c ∧ (stripL c).isEmpty) →
        itemIdentifier cell rowText i =
          ((splitOnChar '\n' rowText).findSome? lineFieldOf).getD
            ((pyWords (stripL rowText)).head?.getD (rowTag i))) := by
  refine ⟨?_, ?_, ?_, ?_⟩
  · rcases hex : extract_file_name_from_row cell rowText with _ | fn
    · simp [itemIdentifier, hex, rowTag_ne_nil i]
    · simp only [itemIdentifier, hex]
      by_cases hfn : fn.isEmpty
      · simp [hfn, rowTag_ne_nil i]
      · simp only [hfn, Bool.false_eq_true, if_false]
        simpa [List.isEmpty_iff] using hfn
  · intro hrow
    simp [itemIdentifier, extract_file_name_from_row, hrow]
  · intro c hrow hcell hc
    subst hcell
    unfold itemIdentifier extract_file_name_from_row
    rw [if_neg hrow]
    simp only []
    rw [if_pos hc]
    simp only []
    rw [if_neg hc]
  · intro hrow hcell
    have hfb : extract_file_name_from_row cell rowText =
        match (splitOnChar '\n' rowText).findSome? lineFieldOf with
        | some fn => some fn
        | none => (pyWords (stripL rowText)).head? := by
      unfold extract_file_name_from_row
      rw [if_neg hrow]
      simp only []
      rw [firstMeaningfulLine_eq_findSome, firstWordCleaned_eq_head]
      rcases hcell with hc | ⟨c, hc, hce⟩
      · subst hc; rfl
      · subst hc
        simp only []
        rw [if_neg (by simpa using hce)]
    rcases hfs : (splitOnChar '\n' rowText).findSome? lineFieldOf with _ | fn
    · rw [hfs] at hfb
      rcases hws : pyWords (stripL rowText) with _ | ⟨w, t⟩
      · rw [hws] at hfb
        simp [itemIdentifier, hfb, hfs, hws]
      · rw [hws] at hfb
        have hwne := (mem_pyWords (stripL rowText) w
          (hws ▸ List.mem_cons_self w t)).1
        simp [itemIdentifier, hfb, hfs, hws, hwne]
    · rw [hfs] at hfb
      have hne : ¬ fn.isEmpty := by
        obtain ⟨l, _, hfl⟩ := List.exists_of_findSome?_eq_some hfs
        exact lineFieldOf_ne_nil l fn hfl
      simp [itemIdentifier, hfb, hfs, hne]

theorem itemIdentifier_policy_witness :
    itemIdentifier none "abc\nlongname.pdf".toList 5 = "longname.pdf".toList := by
  have h := (itemIdentifier_policy none "abc\nlongname.pdf".toList 5).2.2.2
    (by decide) (Or.inl rfl)
  rw [h]
  decide

/-!
## Selector Prober — `monitor_actions.py`, step 3 of `main`

The loop
`for selector, description in selectors_to_try:
   rows = await page.locator(selector).all()
   if len(rows) > 0: ...; break`.
The page is modelled as an oracle mapping a selector to the list of rows
(`locate_all` of the spec's browser capability, which returns an ordered
list and does not fault). -/

structure PageModel where
  locate : Str → List Str

/-- The ordered candidate list `selectors_to_try` (selector and its printed
description). -/
def selectors_to_try : List (Str × String) :=
  [(".mantine-Table-tbody tr".toList, "Mantine Table body rows"),
   ("[class*=\"mantine-Table-tbody\"] tr".toList, "Mantine Table body (variant)"),
   ("tbody tr".toList, "Standard table body rows"),
   ("table tr".toList, "All table rows"),
   ("[role=\"row\"]".toList, "ARIA rows")]

/-- The prober loop: first selector with `len(rows) > 0`, together with its
rows; `none` models the `files_found == False` fallthrough. -/
def probeSelectors (page : PageModel) : List Str → Option (Str × List Str)
  | [] => none
  | s :: rest =>
    let rows := page.locate s
    if 0 < rows.length then some (s, rows) else probeSelectors page rest

/-- The selectors the loop actually evaluates, in order (every candidate
before the first match, plus the match itself). -/
def probeTrace (page : PageModel) : List Str → List Str
  | [] => []
  | s :: rest =>
    if 0 < (page.locate s).length then [s] else s :: probeTrace page rest

/-- C2: the prober returns the first candidate (in list order) with a
nonzero element count, together with that candidate's matched elements; the
selectors it evaluates form a prefix of the candidate list (so no candidate
is tried more than once per scan); and deleting (or, read right-to-left,
inserting) a zero-match entry anywhere leaves the result unchanged. -/
theorem probeSelectors_spec (page : PageModel) (candidates : List Str) :
    probeSelectors page candidates
      = (candidates.find? (fun s => decide (0 < (page.locate s).length))).map
          (fun s => (s, page.locate s))
    ∧ probeTrace page candidates <+: candidates
    ∧ (∀ pre post s, (page.locate s).length = 0 →
        probeSelectors page (pre ++ s :: post) = probeSelectors page (pre ++ post)) := by
  refine ⟨?_, ?_, ?_⟩
  · induction candidates with
    | nil => rfl
    | cons s rest ih =>
      rw [probeSelectors, List.find?]
      by_cases h : 0 < (page.locate s).length
      · simp [h]
      · simp [h, ih]
  · induction candidates with
    | nil => simp [probeTrace]
    | cons s rest ih =>
      rw [probeTrace]
      by_cases h : 0 < (page.locate s).length
      · simp [h]
      · rw [if_neg h]
        obtain ⟨t, ht⟩ := ih
        exact ⟨t, by simp [ht]⟩
  · intro pre post s hzero
    induction pre with
    | nil =>
      simp only [List.nil_append]
      simp only [probeSelectors]
      rw [if_neg (by simp [hzero])]
    | cons q qre ih =>
      simp only [List.cons_append]
      simp only [probeSelectors]
      by_cases h : 0 < (page.locate q).length
      · simp [h]
      · simp only [if_neg h]
        exact ih

/-- A concrete page on which only `tbody tr` matches. -/
def pageWitness : PageModel :=
  ⟨fun s => if s = "tbody tr".toList then ["row one failed".toList] else []⟩

theorem probeSelectors_spec_witness :
    probeSelectors pageWitness ("div.x".toList :: "tbody tr".toList :: [])
      = some ("tbody tr".toList, ["row one failed".toList]) := by
  have h := (probeSelectors_spec pageWitness []).2.2
    [] ["tbody tr".toList] "div.x".toList (by decide)
  simp only [List.nil_append] at h
  rw [h]
  decide

/-!
## Retry Engine — `monitor_actions.py`, `retry_failed_items`

Per failed item the code runs `for attempt in range(1, MAX_RETRIES + 1)`,
re-resolving the row by index, clicking a context menu and a retry control,
and re-reading the row text.  What the page showed during one attempt is an
oracle value `env attempt`; `AttemptObs.raise` models an exception caught by
the attempt's `except` clause. -/

/-- Page observations during one attempt of the per-item loop:
`rowsLen` is `len(rows)` at the re-find, `menuClicked` whether some menu
selector had `count() > 0` and was clicked, `retryClicked` the same for the
retry menu item, `rowsAfterLen` and `rowTextAfter` the re-check state. -/
inductive AttemptObs where
  | raise (msg : Str)
  | ok (rowsLen : Nat) (menuClicked : Bool) (retryClicked : Bool)
      (rowsAfterLen : Nat) (rowTextAfter : Str)

/-- The `final_status` strings recorded by `retry_failed_items`. -/
inductive FinalStatus where
  | still_failed
  | row_disappeared
  | menu_not_found
  | retry_option_not_found
  | success
  | max_retries_reached
  | error (msg : Str)
deriving DecidableEq

/-- One entry of the `results` list of `retry_failed_items`. -/
structure ItemResult where
  attempts : Nat
  final_status : FinalStatus
  success : Bool
deriving DecidableEq

/-- The policy constant `MAX_RETRIES = 3` of `retry_failed_items`. -/
def MAX_RETRIES : Nat := 3

/-- The body of `for attempt in range(1, MAX_RETRIES + 1)`; `fuel` is the
number of iterations the range still holds (so the loop is entered exactly
when `fuel > 0`), and `acc` is the `result` dict being mutated. -/
def retryLoop (indicators : List Str) (maxRetries : Nat)
    (env : Nat → AttemptObs) (rowIndex : Nat) :
    Nat → Nat → ItemResult → ItemResult
  | 0, _, acc => acc
  | fuel + 1, attempt, acc =>
    let acc1 := { acc with attempts := attempt }
    match env attempt with
    | .raise msg =>
      if attempt < maxRetries then
        retryLoop indicators maxRetries env rowIndex fuel (attempt + 1) acc1
      else { acc1 with final_status := .error (msg.take 50) }
    | .ok rowsLen menuClicked retryClicked rowsAfterLen rowTextAfter =>
      if rowsLen ≤ rowIndex then { acc1 with final_status := .row_disappeared }
      else if ¬ menuClicked then { acc1 with final_status := .menu_not_found }
      else if ¬ retryClicked then
        { acc1 with final_status := .retry_option_not_found }
      else if rowIndex < rowsAfterLen then
        if ¬ indicators.any (fun ind => hasSubstr rowTextAfter ind) then
          { acc1 with final_status := .success, success := true }
        else if attempt < maxRetries then
          retryLoop indicators maxRetries env rowIndex fuel (attempt + 1) acc1
        else { acc1 with final_status := .max_retries_reached }
      else { acc1 with final_status := .row_disappeared }

/-- The per-item state machine of `retry_failed_items`: the `result` dict is
initialised to `attempts = 0`, `final_status = 'still_failed'`,
`success = False`, then the attempt loop runs. -/
def retry_failed_item (indicators : List Str) (maxRetries : Nat)
    (env : Nat → AttemptObs) (rowIndex : Nat) : ItemResult :=
  retryLoop indicators maxRetries env rowIndex maxRetries 1
    ⟨0, .still_failed, false⟩

/-- The spec's per-item terminal states (spec §4.3). -/
inductive SpecState where
  | SUCCESS
  | STILL_FAILED
  | ROW_DISAPPEARED
  | ACTION_UNAVAILABLE
  | ERROR
deriving DecidableEq

/-- Reading of the code's `final_status` strings as the spec terminal
states: `max_retries_reached` is the code's string for an item that kept its
failure marker through every attempt (spec `STILL_FAILED`, and also the
dict's initial value `'still_failed'`); `menu_not_found` and
`retry_option_not_found` are the two ways the spec's `ACTION_UNAVAILABLE`
arises ("neither the menu nor the control can be found"). -/
def specStateOf : FinalStatus → SpecState
  | .still_failed => .STILL_FAILED
  | .max_retries_reached => .STILL_FAILED
  | .row_disappeared => .ROW_DISAPPEARED
  | .menu_not_found => .ACTION_UNAVAILABLE
  | .retry_option_not_found => .ACTION_UNAVAILABLE
  | .success => .SUCCESS
  | .error _ => .ERROR

theorem retryLoop_attempts_le (indicators : List Str) (maxRetries : Nat)
    (env : Nat → AttemptObs) (rowIndex : Nat) :
    ∀ fuel attempt acc,
      (retryLoop indicators maxRetries env rowIndex fuel attempt acc).attempts
        ≤ max acc.attempts (attempt + fuel - 1) := by
  intro fuel
  induction fuel with
  | zero =>
    intro attempt acc
    simp [retryLoop]
  | succ f ih =>
    intro attempt acc
    rw [retryLoop]
    cases henv : env attempt with
    | raise msg =>
      simp only []
      by_cases hlt : attempt < maxRetries
      · rw [if_pos hlt]
        have h2 := ih (attempt + 1) { acc with attempts := attempt }
        simp only [] at h2
        omega
      · rw [if_neg hlt]
        simp
    | ok rowsLen menuClicked retryClicked rowsAfterLen rowTextAfter =>
      simp only []
      split
      · simp
      · split
        · simp
        · split
          · simp
          · split
            · split
              · simp
              · split
                · have h2 := ih (attempt + 1) { acc with attempts := attempt }
                  simp only [] at h2
                  omega
                · simp
            · simp

/-- Hypothesis bundle: from attempt `lo` on, every attempt finds the row,
clicks both controls, and re-reads a row text still containing a configured
failure marker. -/
def persistentFailure (indicators : List Str) (maxRetries : Nat)
    (env : Nat → AttemptObs) (rowIndex : Nat) (lo : Nat) : Prop :=
  ∀ a, lo ≤ a → a ≤ maxRetries →
    ∃ rowsLen rowsAfterLen rowTextAfter,
      env a = .ok rowsLen true true rowsAfterLen rowTextAfter
      ∧ rowIndex < rowsLen ∧ rowIndex < rowsAfterLen
      ∧ indicators.any (fun ind => hasSubstr rowTextAfter ind) = true

theorem retryLoop_persistent (indicators : List Str) (maxRetries : Nat)
    (env : Nat → AttemptObs) (rowIndex : Nat) :
    ∀ fuel attempt acc,
      attempt + fuel = maxRetries + 1 →
      1 ≤ fuel →
      persistentFailure indicators maxRetries env rowIndex attempt →
      retryLoop indicators maxRetries env rowIndex fuel attempt acc
        = ⟨maxRetries, .max_retries_reached, acc.success⟩ := by
  intro fuel
  induction fuel with
  | zero =>
    intro attempt acc _ hfuel
    omega
  | succ f ih =>
    intro attempt acc hsum _ hobs
    obtain ⟨rowsLen, rowsAfterLen, rowTextAfter, henv, hr1, hr2, hfail⟩ :=
      hobs attempt (le_refl attempt) (by omega)
    rw [retryLoop, henv]
    simp only []
    rw [if_neg (show ¬ rowsLen ≤ rowIndex from by omega)]
    rw [if_neg (show ¬ ¬ True from not_not_intro trivial)]
    rw [if_neg (show ¬ ¬ True from not_not_intro trivial)]
    rw [if_pos hr2]
    rw [if_neg (show ¬ ¬ (indicators.any fun ind => hasSubstr rowTextAfter ind) = true
      from not_not_intro hfail)]
    by_cases hlt : attempt < maxRetries
    · rw [if_pos hlt]
      exact ih (attempt + 1) { acc with attempts := attempt } (by omega) (by omega)
        (fun a ha1 ha2 => hobs a (by omega) ha2)
    · rw [if_neg hlt]
      have heq : attempt = maxRetries := by omega
      simp [heq]

theorem retryLoop_env_congr (indicators : List Str) (maxRetries : Nat)
    (rowIndex : Nat) :
    ∀ fuel attempt acc (env env' : Nat → AttemptObs),
      (∀ a, attempt ≤ a → a < attempt + fuel → env' a = env a) →
      retryLoop indicators maxRetries env' rowIndex fuel attempt acc
        = retryLoop indicators maxRetries env rowIndex fuel attempt acc := by
  intro fuel
  induction fuel with
  | zero => intro attempt acc env env' _; rfl
  | succ f ih =>
    intro attempt acc env env' hagree
    have henv : env' attempt = env attempt := hagree attempt le_rfl (by omega)
    rw [retryLoop, retryLoop, henv]
    cases env attempt with
    | raise msg =>
      simp only []
      split
      · exact ih (attempt + 1) _ env env'
          (fun a ha1 ha2 => hagree a (by omega) (by omega))
      · rfl
    | ok rowsLen menuClicked retryClicked rowsAfterLen rowTextAfter =>
      simp only []
      repeat' split
      all_goals first
        | rfl
        | exact ih (attempt + 1) _ env env'
            (fun a ha1 ha2 => hagree a (by omega) (by omega))

/-- C1: the per-item Retry Engine records at most `maxRetries` attempts,
whatever the page does; and an item whose re-read row text still contains a
failure marker on every attempt (all page actions succeeding) ends with
`attempts = maxRetries`, `success = false` and the code's
`max_retries_reached` final status — the spec's STILL_FAILED terminal
state. -/
theorem retry_failed_item_max_attempts (indicators : List Str)
    (maxRetries : Nat) (env : Nat → AttemptObs) (rowIndex : Nat) :
    (retry_failed_item indicators maxRetries env rowIndex).attempts ≤ maxRetries
    ∧ (1 ≤ maxRetries →
        persistentFailure indicators maxRetries env rowIndex 1 →
        retry_failed_item indicators maxRetries env rowIndex
            = ⟨maxRetries, .max_retries_reached, false⟩
        ∧ specStateOf
            (retry_failed_item indicators maxRetries env rowIndex).final_status
            = .STILL_FAILED)
    ∧ (∀ env' : Nat → AttemptObs,
        (∀ a, 1 ≤ a → a ≤ maxRetries → env' a = env a) →
        retry_failed_item indicators maxRetries env' rowIndex
          = retry_failed_item indicators maxRetries env rowIndex) := by
  refine ⟨?_, ?_, ?_⟩
  · have h := retryLoop_attempts_le indicators maxRetries env rowIndex
      maxRetries 1 ⟨0, .still_failed, false⟩
    simp only [retry_failed_item]
    simp at h
    omega
  · intro hmax hpf
    have h := retryLoop_persistent indicators maxRetries env rowIndex
      maxRetries 1 ⟨0, .still_failed, false⟩ (by omega) hmax hpf
    unfold retry_failed_item
    rw [h]
    exact ⟨rfl, rfl⟩
  · intro env' hagree
    exact retryLoop_env_congr indicators maxRetries rowIndex maxRetries 1
      ⟨0, .still_failed, false⟩ env env'
      (fun a ha1 ha2 => hagree a ha1 (by omega))

theorem retry_failed_item_max_attempts_witness :
    retry_failed_item failure_indicators MAX_RETRIES
        (fun _ => .ok 1 true true 1 "doc.pdf failed".toList) 0
      = ⟨MAX_RETRIES, .max_retries_reached, false⟩ := by
  have h := (retry_failed_item_max_attempts failure_indicators MAX_RETRIES
      (fun _ => .ok 1 true true 1 "doc.pdf failed".toList) 0).2.1 (by decide)
      (fun a _ _ =>
        ⟨1, 1, "doc.pdf failed".toList, rfl, by decide, by decide, by decide⟩)
  exact h.1

/-!
## Orchestration boundary of `monitor_actions.py`, `main`

The run-level observations that determine the script's return value.  The
retry results are carried in the structure to make explicit that the return
value does not depend on them. -/

/-- Observations of one `monitor_actions.main` run: environment-variable
checks, login click, scan results, and whether an exception reached the
outer `except` clause. -/
structure ActionsRunObs where
  hasCredentials : Bool
  hasWebhook : Bool
  uncaughtError : Bool
  loginClicked : Bool
  hasDirectUrl : Bool
  filesFound : Bool
  totalItems : Nat
  retryResults : List ItemResult

/-- The return value of `monitor_actions.main`: 1 on missing credentials or
webhook, on an uncaught exception, on a missing login button or KB URL, or
when no KB files were found; 0 otherwise — note no branch consults the
retry results. -/
def actionsMainExit (o : ActionsRunObs) : Nat :=
  if ¬ o.hasCredentials then 1
  else if ¬ o.hasWebhook then 1
  else if o.uncaughtError then 1
  else if ¬ o.loginClicked then 1
  else if ¬ o.hasDirectUrl then 1
  else if ¬ o.filesFound ∨ o.totalItems = 0 then 1
  else 0

theorem retry_item_menu_missing (indicators : List Str) (maxRetries : Nat)
    (env : Nat → AttemptObs) (rowIndex rowsLen rowsAfterLen : Nat)
    (menuClicked retryClicked : Bool) (rowTextAfter : Str)
    (hmax : 1 ≤ maxRetries)
    (hobs : env 1 = .ok rowsLen menuClicked retryClicked rowsAfterLen rowTextAfter)
    (hrow : rowIndex < rowsLen)
    (hmiss : menuClicked = false ∨ (menuClicked = true ∧ retryClicked = false)) :
    retry_failed_item indicators maxRetries env rowIndex
      = ⟨1, if menuClicked = true then .retry_option_not_found
            else .menu_not_found, false⟩ := by
  rcases maxRetries with _ | k
  · omega
  · unfold retry_failed_item
    rw [retryLoop, hobs]
    simp only []
    rw [if_neg (show ¬ rowsLen ≤ rowIndex from by omega)]
    rcases hmiss with hm | ⟨hm, hr⟩
    · subst hm
      simp
    · subst hm
      subst hr
      simp

/-- C9: when on the first attempt the row is still present but the context
menu cannot be clicked — or the menu is clicked and no retry control is
found — the item terminates after exactly 1 attempt in the code state
`menu_not_found` / `retry_option_not_found`, the spec's ACTION_UNAVAILABLE,
with `success = false`; the loop is never re-entered (the result depends
only on what the page showed during attempt 1); and `monitor_actions.main`
still returns 0 whenever the scan stage succeeded, independently of the
retry results. -/
theorem retry_action_unavailable (indicators : List Str) (maxRetries : Nat)
    (env : Nat → AttemptObs) (rowIndex rowsLen rowsAfterLen : Nat)
    (menuClicked retryClicked : Bool) (rowTextAfter : Str)
    (hmax : 1 ≤ maxRetries)
    (hobs : env 1 = .ok rowsLen menuClicked retryClicked rowsAfterLen rowTextAfter)
    (hrow : rowIndex < rowsLen)
    (hmiss : menuClicked = false ∨ (menuClicked = true ∧ retryClicked = false)) :
    (retry_failed_item indicators maxRetries env rowIndex).attempts = 1
    ∧ (retry_failed_item indicators maxRetries env rowIndex).success = false
    ∧ specStateOf
        (retry_failed_item indicators maxRetries env rowIndex).final_status
        = .ACTION_UNAVAILABLE
    ∧ (∀ env' : Nat → AttemptObs, env' 1 = env 1 →
        retry_failed_item indicators maxRetries env' rowIndex
          = retry_failed_item indicators maxRetries env rowIndex)
    ∧ (∀ o : ActionsRunObs, o.hasCredentials = true → o.hasWebhook = true →
        o.uncaughtError = false → o.loginClicked = true →
        o.hasDirectUrl = true → o.filesFound = true → 0 < o.totalItems →
        actionsMainExit o = 0) := by
  have hmain := retry_item_menu_missing indicators maxRetries env rowIndex
    rowsLen rowsAfterLen menuClicked retryClicked rowTextAfter
    hmax hobs hrow hmiss
  refine ⟨by rw [hmain], by rw [hmain], ?_, ?_, ?_⟩
  · rw [hmain]
    rcases menuClicked with _ | _ <;> rfl
  · intro env' henv
    rw [hmain, retry_item_menu_missing indicators maxRetries env' rowIndex
      rowsLen rowsAfterLen menuClicked retryClicked rowTextAfter
      hmax (henv.trans hobs) hrow hmiss]
  · intro o h1 h2 h3 h4 h5 h6 h7
    have h8 : ¬ o.totalItems = 0 := by omega
    simp [actionsMainExit, h1, h2, h3, h4, h5, h6, h8]

theorem retry_action_unavailable_witness :
    (retry_failed_item failure_indicators MAX_RETRIES
        (fun _ => .ok 1 false false 0 []) 0).attempts = 1
    ∧ actionsMainExit ⟨true, true, false, true, true, true, 5,
        [⟨1, .menu_not_found, false⟩]⟩ = 0 := by
  have h := retry_action_unavailable failure_indicators MAX_RETRIES
    (fun _ => .ok 1 false false 0 []) 0 1 0 false false [] (by decide) rfl
    (by decide) (Or.inl rfl)
  exact ⟨h.1, h.2.2.2.2 _ rfl rfl rfl rfl rfl rfl (by decide)⟩

/-!
## Backoff / Error Classifier — `src/src/automation/retry_handler.py`

A fault is observed through `str(error)` and `type(error).__name__`
(`ErrObs`).  The policy constants are the pydantic `int` fields of
`config.monitoring.retry` (defaults `max_attempts = 3`,
`backoff_base = 2`, `initial_delay = 1`), so the backoff arithmetic is
exact integer arithmetic. -/

/-- The observable parts of a Python exception used by the classifier. -/
structure ErrObs where
  message : Str
  typeName : Str

/-- `ErrorType` of `retry_handler.py`. -/
inductive ErrorType where
  | authentication_failed
  | permission_denied
  | not_found
  | invalid_input
  | network_timeout
  | rate_limited
  | server_error
  | browser_crashed
  | unknown
deriving DecidableEq

/-- `PERMANENT_ERROR_PATTERNS`. -/
def PERMANENT_ERROR_PATTERNS : List Str :=
  ["authentication".toList, "auth".toList, "permission".toList,
   "forbidden".toList, "401".toList, "403".toList, "not found".toList,
   "404".toList, "invalid".toList]

/-- `TEMPORARY_ERROR_PATTERNS`. -/
def TEMPORARY_ERROR_PATTERNS : List Str :=
  ["timeout".toList, "timed out".toList, "rate limit".toList, "429".toList,
   "500".toList, "502".toList, "503".toList, "504".toList,
   "connection".toList, "network".toList, "target closed".toList,
   "browser".toList, "playwright".toList]

/-- The pattern loop `for pattern in ...: if pattern in error_message or
pattern in error_type_name:` — first matching pattern wins. -/
def matchedIn (msg ty : Str) (pats : List Str) : Option Str :=
  pats.find? (fun p => hasSubstr msg p || hasSubstr ty p)

/-- `RetryHandler.classify_error`: lowercase the message and the exception
type name, scan the permanent patterns first, then the temporary ones, and
refine the matched pattern into an `ErrorType` by the substring checks the
code performs on the pattern itself. -/
def classify_error (e : ErrObs) : ErrorType :=
  let msg := toLowerL e.message
  let ty := toLowerL e.typeName
  match matchedIn msg ty PERMANENT_ERROR_PATTERNS with
  | some pat =>
    if hasSubstr pat "auth".toList then .authentication_failed
    else if hasSubstr pat "permission".toList || hasSubstr pat "forbidden".toList
        || hasSubstr pat "403".toList then .permission_denied
    else if hasSubstr pat "not found".toList || hasSubstr pat "404".toList then
      .not_found
    else .invalid_input
  | none =>
    match matchedIn msg ty TEMPORARY_ERROR_PATTERNS with
    | some pat =>
      if hasSubstr pat "timeout".toList then .network_timeout
      else if hasSubstr pat "rate limit".toList || hasSubstr pat "429".toList then
        .rate_limited
      else if hasSubstr pat "500".toList || hasSubstr pat "502".toList
          || hasSubstr pat "503".toList || hasSubstr pat "504".toList then
        .server_error
      else if hasSubstr pat "browser".toList || hasSubstr pat "playwright".toList
          || hasSubstr pat "target closed".toList then .browser_crashed
      else .network_timeout
    | none => .unknown

/-- `RetryHandler.should_retry`: false once `attempt >= max_attempts`,
false on the four permanent kinds, true otherwise. -/
def should_retry (maxAttempts : Nat) (e : ErrObs) (attempt : Nat) : Bool :=
  if maxAttempts ≤ attempt then false
  else
    let errorType := classify_error e
    if errorType = .authentication_failed ∨ errorType = .permission_denied
        ∨ errorType = .not_found ∨ errorType = .invalid_input then false
    else true

/-- `RetryHandler.get_backoff_delay`:
`initial_delay * (backoff_base ** (attempt - 1))` capped at 60. -/
def get_backoff_delay (initialDelay backoffBase : ℤ) (attempt : Nat) : ℤ :=
  min (initialDelay * backoffBase ^ (attempt - 1)) 60

/-- C4: `should_retry` is false whenever the attempt counter has reached
`max_attempts`; false for every fault classified as one of the four
permanent kinds, regardless of the attempt number; and true in every other
case. -/
theorem should_retry_spec (maxAttempts : Nat) (e : ErrObs) (attempt : Nat) :
    (maxAttempts ≤ attempt → should_retry maxAttempts e attempt = false)
    ∧ ((classify_error e = .authentication_failed
        ∨ classify_error e = .permission_denied
        ∨ classify_error e = .not_found
        ∨ classify_error e = .invalid_input) →
        should_retry maxAttempts e attempt = false)
    ∧ (attempt < maxAttempts →
        ¬ (classify_error e = .authentication_failed
          ∨ classify_error e = .permission_denied
          ∨ classify_error e = .not_found
          ∨ classify_error e = .invalid_input) →
        should_retry maxAttempts e attempt = true) := by
  refine ⟨?_, ?_, ?_⟩
  · intro h
    simp [should_retry, h]
  · intro h
    unfold should_retry
    by_cases hle : maxAttempts ≤ attempt
    · simp [hle]
    · simp [hle, h]
  · intro hlt h
    unfold should_retry
    rw [if_neg (by omega)]
    simp only []
    rw [if_neg h]

theorem should_retry_spec_witness :
    should_retry 3 ⟨"HTTP 401 Unauthorized".toList, "RuntimeError".toList⟩ 1
      = false :=
  (should_retry_spec 3 ⟨"HTTP 401 Unauthorized".toList, "RuntimeError".toList⟩
    1).2.1 (Or.inl (by decide))

/-- C5: with integer policy constants satisfying `0 ≤ initial_delay ≤ 60`
and `1 ≤ backoff_base` (as the defaults 1 and 2 do), the backoff delay is
the exponential formula capped at 60, never exceeds 60, equals
`initial_delay` at attempt 1, and is monotone non-decreasing in the attempt
number from 1 on. -/
theorem get_backoff_delay_spec (initialDelay backoffBase : ℤ)
    (hd0 : 0 ≤ initialDelay) (hd60 : initialDelay ≤ 60)
    (hb : 1 ≤ backoffBase) :
    get_backoff_delay initialDelay backoffBase 1 = initialDelay
    ∧ (∀ n, get_backoff_delay initialDelay backoffBase n
        = min (initialDelay * backoffBase ^ (n - 1)) 60)
    ∧ (∀ n, get_backoff_delay initialDelay backoffBase n ≤ 60)
    ∧ (∀ m n, 1 ≤ m → m ≤ n →
        get_backoff_delay initialDelay backoffBase m
          ≤ get_backoff_delay initialDelay backoffBase n) := by
  refine ⟨?_, fun n => rfl, fun n => min_le_right _ _, ?_⟩
  · unfold get_backoff_delay
    simp
    omega
  · intro m n hm hmn
    unfold get_backoff_delay
    refine min_le_min ?_ le_rfl
    exact mul_le_mul_of_nonneg_left (pow_le_pow_right₀ hb (by omega)) hd0

theorem get_backoff_delay_spec_witness :
    get_backoff_delay 1 2 1 = 1
    ∧ get_backoff_delay 1 2 2 ≤ get_backoff_delay 1 2 7 := by
  have h := get_backoff_delay_spec 1 2 (by decide) (by decide) (by decide)
  exact ⟨h.1, h.2.2.2 2 7 (by decide) (by decide)⟩

/-!
## Generic retry helpers — `retry_handler.py`, `retry_sync` / `retry_async`

The two functions have identical control flow (the async variant only
awaits), so one embedding covers both.  `calls attempt` is what the wrapped
function did on that attempt. -/

/-- Outcome of one invocation of the wrapped function. -/
inductive CallOut where
  | ok
  | err (e : ErrObs)

/-- The `RetryResult` dataclass (minus `total_time`, which is wall clock):
on failure the error field carries the classification of the last error and
its message (`none` message when the loop never ran and `last_error` stayed
`None`). -/
structure RetryResult where
  success : Bool
  attempts : Nat
  error : Option (ErrorType × Option Str)
deriving DecidableEq

/-- The loop of `retry_sync`/`retry_async`; `fuel` counts the remaining
iterations of `range(1, max_attempts + 1)`.  The second component of the
result is ghost instrumentation: the number of times the wrapped function
was actually invoked (not part of the Python return value). -/
def retryCallLoop (maxAttempts : Nat) (calls : Nat → CallOut) :
    Option ErrObs → Nat → Nat → RetryResult × Nat
  | lastErr, 0, attempt =>
    (⟨false, maxAttempts,
      some (match lastErr with
            | some e => (classify_error e, some e.message)
            | none => (.unknown, none))⟩, attempt - 1)
  | _, fuel + 1, attempt =>
    match calls attempt with
    | .ok => (⟨true, attempt, none⟩, attempt)
    | .err e =>
      if should_retry maxAttempts e attempt then
        retryCallLoop maxAttempts calls (some e) fuel (attempt + 1)
      else
        (⟨false, maxAttempts, some (classify_error e, some e.message)⟩, attempt)

/-- `RetryHandler.retry_sync` (and `retry_async`): run the attempt loop from
attempt 1 with `last_error = None`. -/
def retry_sync (maxAttempts : Nat) (calls : Nat → CallOut) :
    RetryResult × Nat :=
  retryCallLoop maxAttempts calls none maxAttempts 1

theorem retryCallLoop_failure_attempts (maxAttempts : Nat)
    (calls : Nat → CallOut) :
    ∀ fuel lastErr attempt,
      (retryCallLoop maxAttempts calls lastErr fuel attempt).1.success = false →
      (retryCallLoop maxAttempts calls lastErr fuel attempt).1.attempts
        = maxAttempts := by
  intro fuel
  induction fuel with
  | zero => intro lastErr attempt _; rfl
  | succ f ih =>
    intro lastErr attempt hfail
    rw [retryCallLoop] at hfail ⊢
    cases hc : calls attempt with
    | ok =>
      rw [hc] at hfail
      simp at hfail
    | err e =>
      rw [hc] at hfail
      by_cases hs : should_retry maxAttempts e attempt = true
      · simp only [hs, if_true] at hfail ⊢
        exact ih (some e) (attempt + 1) hfail
      · simp [hs] at hfail ⊢

/-- C10: whenever the generic retry helper returns an unsuccessful
`RetryResult`, the reported `attempts` field equals the configured
`max_attempts` — even when the loop broke early because the fault was
classified permanent on an earlier attempt, so on failure the field does
not reflect the number of executions actually performed.  In particular a
permanently-classified fault on attempt 1 with `max_attempts ≥ 2` stops the
loop after a single execution while the result still reports
`attempts = max_attempts`. -/
theorem retry_sync_attempts_on_failure (maxAttempts : Nat)
    (calls : Nat → CallOut) :
    ((retry_sync maxAttempts calls).1.success = false →
      (retry_sync maxAttempts calls).1.attempts = maxAttempts)
    ∧ (∀ e, 2 ≤ maxAttempts → calls 1 = .err e →
        (classify_error e = .authentication_failed
          ∨ classify_error e = .permission_denied
          ∨ classify_error e = .not_found
          ∨ classify_error e = .invalid_input) →
        (retry_sync maxAttempts calls).2 = 1
        ∧ (retry_sync maxAttempts calls).1.attempts = maxAttempts
        ∧ (retry_sync maxAttempts calls).1.success = false) := by
  constructor
  · exact retryCallLoop_failure_attempts maxAttempts calls maxAttempts none 1
  · intro e hmax hcall hperm
    have hs : should_retry maxAttempts e 1 = false :=
      (should_retry_spec maxAttempts e 1).2.1 hperm
    obtain ⟨f, hf⟩ : ∃ f, maxAttempts = f + 1 := ⟨maxAttempts - 1, by omega⟩
    rw [hf] at hs
    unfold retry_sync
    rw [hf]
    rw [retryCallLoop, hcall]
    simp only [hs, Bool.false_eq_true, if_false]
    exact ⟨trivial, trivial, trivial⟩

theorem retry_sync_attempts_on_failure_witness :
    (retry_sync 3 (fun _ => .err ⟨"403 Forbidden".toList, "HTTPError".toList⟩)).2
        = 1
    ∧ (retry_sync 3
        (fun _ => .err ⟨"403 Forbidden".toList, "HTTPError".toList⟩)).1.attempts
        = 3 := by
  have h := (retry_sync_attempts_on_failure 3
      (fun _ => .err ⟨"403 Forbidden".toList, "HTTPError".toList⟩)).2
    ⟨"403 Forbidden".toList, "HTTPError".toList⟩ (by decide) rfl
    (Or.inr (Or.inl (by decide)))
  exact ⟨h.1, h.2.1⟩

/-!
## Run Orchestrator exit codes — `src/src/main.py` with
`KBMonitor.check_status` of `kb_monitor.py`

`MonitorResult.success` is set by `check_status`: `False` on login or
navigation failure or an exception inside the monitoring `try`, `True`
otherwise — independent of how many failed items were found.  `main`
returns `0 if result.success else 1`; the boolean returned by
`notifier.send_summary` (which catches every exception internally and
returns `False` on delivery failure, `lark_notifier.py`) is only logged.
`KeyboardInterrupt` returns 130, any other escaped exception 1. -/

/-- Observations of one `src/main.py` run. -/
structure MainObs where
  configOk : Bool
  credsOk : Bool
  browserStartOk : Bool
  loginOk : Bool
  navOk : Bool
  scanException : Bool
  failedCount : Nat
  notifySent : Bool
  interrupted : Bool
  uncaughtFault : Bool

/-- `MonitorResult.success` as computed by `check_status`. -/
def checkStatusSuccess (o : MainObs) : Bool :=
  o.loginOk && o.navOk && !o.scanException

/-- The exit code of `src/main.py`'s `main`. -/
def mainExit (o : MainObs) : Nat :=
  if ¬ o.configOk then 1
  else if ¬ o.credsOk then 1
  else if o.interrupted then 130
  else if o.uncaughtFault then 1
  else if ¬ o.browserStartOk then 1
  else if checkStatusSuccess o then 0 else 1

/-- C6: the orchestration boundary exits 0 exactly when the run completed
(login and navigation succeeded, no fault escaped) — regardless of the
number of detected item failures and of whether the notification was
delivered; it exits 1 when the run did not complete (login, navigation or
monitoring fault, configuration/credential/browser-start failure, or an
uncaught fault) and 130 when externally interrupted; and in the
`monitor_actions` boundary a table-discovery failure (no selector matched,
or zero rows) also exits 1. -/
theorem mainExit_spec (o : MainObs) :
    (o.configOk → o.credsOk → ¬ o.interrupted → ¬ o.uncaughtFault →
      o.browserStartOk → checkStatusSuccess o = true → mainExit o = 0)
    ∧ (∀ fc ns,
        mainExit { o with failedCount := fc, notifySent := ns } = mainExit o)
    ∧ (checkStatusSuccess o = false ↔
        (o.loginOk = false ∨ o.navOk = false ∨ o.scanException = true))
    ∧ (o.configOk → o.credsOk → ¬ o.interrupted → ¬ o.uncaughtFault →
        o.browserStartOk → checkStatusSuccess o = false → mainExit o = 1)
    ∧ (o.configOk → o.credsOk → ¬ o.interrupted → o.uncaughtFault →
        mainExit o = 1)
    ∧ (o.configOk → o.credsOk → o.interrupted → mainExit o = 130)
    ∧ (∀ p : ActionsRunObs, p.hasCredentials → p.hasWebhook →
        ¬ p.uncaughtError → p.loginClicked → p.hasDirectUrl →
        (p.filesFound = false ∨ p.totalItems = 0) → actionsMainExit p = 1) := by
  refine ⟨?_, ?_, ?_, ?_, ?_, ?_, ?_⟩
  · intro h1 h2 h3 h4 h5 h6
    simp [mainExit, h1, h2, h3, h4, h5, h6]
  · intro fc ns
    simp [mainExit, checkStatusSuccess]
  · unfold checkStatusSuccess
    rcases o.loginOk with _ | _ <;> rcases o.navOk with _ | _ <;>
      rcases o.scanException with _ | _ <;> simp
  · intro h1 h2 h3 h4 h5 h6
    simp [mainExit, h1, h2, h3, h4, h5, h6]
  · intro h1 h2 h3 h4
    simp [mainExit, h1, h2, h3, h4]
  · intro h1 h2 h3
    simp [mainExit, h1, h2, h3]
  · intro p h1 h2 h3 h4 h5 h6
    rcases h6 with h6 | h6 <;>
      simp [actionsMainExit, h1, h2, h3, h4, h5, h6]

theorem mainExit_spec_witness :
    mainExit ⟨true, true, true, true, true, false, 7, false, false, false⟩ = 0 :=
  (mainExit_spec ⟨true, true, true, true, true, false, 7, false, false, false⟩).1
    rfl rfl (by decide) (by decide) rfl (by decide)

/-!
## Execution-time measurement — `check_status` and `main`

`check_status` reads the wall clock at entry (`start_time = datetime.now()`,
`kb_monitor.py` line 81) and computes
`execution_time = (datetime.now() - start_time).total_seconds()` in its
`finally` block (line 157); `main` hands the result to
`notifier.send_summary` only after `check_status` has returned
(`main.py` line 97).  A `Timeline` carries those three instants; its two
proof fields are program order under a monotone wall clock. -/

/-- The three wall-clock instants relevant to `execution_time`:
`check_status` entry, the `finally`-block measurement, and the
`send_summary` call in `main`. -/
structure Timeline where
  tStart : ℚ
  tFinally : ℚ
  tNotify : ℚ
  startBeforeFinally : tStart ≤ tFinally
  finallyBeforeNotify : tFinally ≤ tNotify

/-- `result.execution_time` as computed in the `finally` block. -/
def executionTime (tl : Timeline) : ℚ := tl.tFinally - tl.tStart

/-- The claim C8 reading: the measured interval
`[tStart, tStart + execution_time]` contains the instant the report is
handed to the notification sink. -/
def measuredIntervalCoversNotify (tl : Timeline) : Prop :=
  tl.tStart ≤ tl.tNotify ∧ tl.tNotify ≤ tl.tStart + executionTime tl

/-- C8 (counterexample): a run in which the pipeline takes 5 seconds and the
notification is handed over 2 seconds later — `execution_time` is computed
before `send_summary` runs, so the measured interval does not contain the
notification instant. -/
theorem executionTime_excludes_notify_cex :
    ¬ measuredIntervalCoversNotify
      ⟨0, 5, 7, by norm_num, by norm_num⟩ := by
  unfold measuredIntervalCoversNotify executionTime
  norm_num

/-- C8 (amended): `execution_time` measures wall-clock time from pipeline
start to the end of the monitoring workflow (the `finally` block of
`check_status`), which lies at or before the notification hand-off; the
measured interval contains the notification instant only in the degenerate
case where the hand-off happens at the very same instant the measurement
was taken. -/
theorem executionTime_spec (tl : Timeline) :
    tl.tStart + executionTime tl = tl.tFinally
    ∧ tl.tFinally ≤ tl.tNotify
    ∧ (measuredIntervalCoversNotify tl ↔ tl.tNotify = tl.tFinally) := by
  refine ⟨by unfold executionTime; ring, tl.finallyBeforeNotify, ?_⟩
  unfold measuredIntervalCoversNotify executionTime
  constructor
  · rintro ⟨h1, h2⟩
    have := tl.finallyBeforeNotify
    have h3 : tl.tStart + (tl.tFinally - tl.tStart) = tl.tFinally := by ring
    rw [h3] at h2
    linarith
  · intro h
    have hs := tl.startBeforeFinally
    have hn := tl.finallyBeforeNotify
    constructor
    · linarith
    · have h3 : tl.tStart + (tl.tFinally - tl.tStart) = tl.tFinally := by ring
      rw [h3]
      linarith

theorem classifyRow_iff_marker_witness :
    classifyRow failure_indicators "x 失敗 y".toList = true :=
  (classifyRow_iff_marker failure_indicators "x 失敗 y".toList).2
    ⟨"失敗".toList, by decide, by decide⟩

theorem executionTime_spec_witness :
    (0 : ℚ) + executionTime ⟨0, 5, 7, by norm_num, by norm_num⟩ = 5 :=
  (executionTime_spec ⟨0, 5, 7, by norm_num, by norm_num⟩).1
